import Mathlib

/-!
Verification of the cost-projection pipeline and data-preparation routines of
`message-ix-models` (measrainsey fork), against a shallow embedding in Lean 4.

Dataframes are modelled as lists of structure values (one structure per row
schema); pandas boolean-mask filtering, `merge`, `assign`, `reindex`,
`drop_duplicates` and `melt` become list filtering, joining by key, mapping,
projection and order-preserving deduplication.  Floating-point values are
modelled as rationals; a missing value (`NaN`) is `Option.none`.  The
transcendental functions `np.exp` and `np.log` are abstracted as function
parameters satisfying the exponential/logarithm cancellation law on positive
arguments; the `sklearn` least-squares fit is abstracted as a function
parameter, since both live in external libraries.
-/

set_option maxHeartbeats 1000000

namespace MsgIx

/-- Order-preserving deduplication keeping the first occurrence of each
element: the semantics of `pandas.unique` and of `DataFrame.drop_duplicates`. -/
def uniqueFirst {α : Type} [DecidableEq α] (l : List α) : List α :=
  l.foldl (fun acc x => if x ∈ acc then acc else acc ++ [x]) []

/-- Python exceptions raised by the embedded code paths. -/
inductive PyErr where
  | typeError
  | keyError
  | unboundLocal
deriving DecidableEq, Repr

/-- Python string concatenation `s + t` where `t : Optional[str]`: concatenating
a `str` with `None` raises `TypeError`. -/
def pyStrConcat (s : String) (t : Option String) : Except PyErr String :=
  match t with
  | some u => Except.ok (s ++ u)
  | none => Except.error PyErr.typeError

/-! ## Embedding of `tools/costs/splines.py` -/

/-- Source line 10: `first_model_year = 2020`. -/
def first_model_year : Int := 2020

/-- Source line 11: `last_model_year = 2100`. -/
def last_model_year : Int := 2100

/-- Source line 12: `pre_last_year_rate = 0.01`. -/
def pre_last_year_rate : Rat := 1 / 100

/-- Source lines 91-92 of `project_capital_costs_using_learning_rates`:
`cost_region_2100 = cost_region_2021 - cost_region_2021 * cost_reduction`. -/
def cost_region_2100 (cost_region_2021 cost_reduction : Rat) : Rat :=
  cost_region_2021 - cost_region_2021 * cost_reduction

/-- Source line 93: `b = (1 - pre_last_year_rate) * cost_region_2100`. -/
def learning_b (cost_region_2021 cost_reduction : Rat) : Rat :=
  (1 - pre_last_year_rate) * cost_region_2100 cost_region_2021 cost_reduction

/-- Source lines 94-95:
`r = (1 / (last_model_year - first_model_year)) * log((cost_region_2100 - b) / (cost_region_2021 - b))`.
`lg` stands for `np.log`, evaluated in the external numerics library. -/
def learning_r (lg : Rat → Rat) (cost_region_2021 cost_reduction : Rat) : Rat :=
  (1 / (((last_model_year : Rat)) - ((first_model_year : Rat)))) *
    lg ((cost_region_2100 cost_region_2021 cost_reduction
          - learning_b cost_region_2021 cost_reduction)
        / (cost_region_2021 - learning_b cost_region_2021 cost_reduction))

/-- Source lines 82-86:
`first_technology_year = np.where(first_year_original > first_model_year, first_year_original, first_model_year)`. -/
def first_technology_year (first_year_original : Int) : Int :=
  if first_year_original > first_model_year then first_year_original else first_model_year

/-- Source lines 101-110, the per-year column of
`project_capital_costs_using_learning_rates`:
`ycur = np.where(y <= first_model_year, cost_region_2021, (cost_region_2021 - b) * exp(r * (y - first_technology_year)) + b)`.
`ex` stands for `np.exp`. -/
def ycur (ex lg : Rat → Rat) (cost_region_2021 cost_reduction : Rat)
    (fty y : Int) : Rat :=
  if y ≤ first_model_year then cost_region_2021
  else (cost_region_2021 - learning_b cost_region_2021 cost_reduction) *
      ex (learning_r lg cost_region_2021 cost_reduction * (((y : Rat)) - ((fty : Rat))))
    + learning_b cost_region_2021 cost_reduction

/-- A row of the dataframe `df_tech_costs` consumed by
`apply_polynominal_regression_NAM_costs` (the melted output of
`project_capital_costs_using_learning_rates`): columns `ssp_scenario`,
`message_technology`, `r11_region`, `year`, `cost_region_projected`. -/
structure TechCostRow where
  ssp_scenario : String
  message_technology : String
  r11_region : String
  year : Int
  cost_region_projected : Rat
deriving DecidableEq, Repr

/-- A row of the dataframe returned by `apply_polynominal_regression_NAM_costs`
(source lines 233-244): the three polynomial coefficients and the intercept of
the degree-3 fit for one (scenario, technology, region) combination. -/
structure RegRow where
  ssp_scenario : String
  message_technology : String
  r11_region : String
  beta_1 : Rat
  beta_2 : Rat
  beta_3 : Rat
  intercept : Rat
deriving DecidableEq, Repr

/-- Source line 202: `itertools.product(un_ssp, un_tech, un_reg)`. -/
def tripleProduct (a b c : List String) : List (String × String × String) :=
  a.flatMap fun i => b.flatMap fun j => c.map fun k => (i, j, k)

/-- Source lines 203-207: the boolean-mask selection of the rows of
`df_tech_costs` matching one (ssp_scenario, message_technology, r11_region)
combination. -/
def techSubset (df : List TechCostRow) (t : String × String × String) :
    List TechCostRow :=
  df.filter fun r =>
    r.ssp_scenario == t.1 && r.message_technology == t.2.1 && r.r11_region == t.2.2

/-- Source lines 197-248, `apply_polynominal_regression_NAM_costs`: for each
combination of the unique values of the three key columns, select the matching
rows; skip the combination when the selection is empty (`if tech.size == 0:
continue`); otherwise fit a degree-3 polynomial of `cost_region_projected` on
`year` and emit one row with the coefficients and the intercept.  The fit
itself (`PolynomialFeatures(degree=3)` plus `LinearRegression().fit`) runs in
the external `sklearn` library and is abstracted as the parameter `fit`,
returning `(beta_1, beta_2, beta_3, intercept)`.  `regRowOf` builds the one
output row of one combination (source lines 212-244);
`apply_polynominal_regression_NAM_costs` is the whole loop. -/
def regRowOf (fit : List (Int × Rat) → Rat × Rat × Rat × Rat)
    (df : List TechCostRow) (t : String × String × String) : RegRow :=
  let c := fit ((techSubset df t).map fun r => (r.year, r.cost_region_projected))
  ⟨t.1, t.2.1, t.2.2, c.1, c.2.1, c.2.2.1, c.2.2.2⟩

/-- See `regRowOf`. -/
def apply_polynominal_regression_NAM_costs
    (fit : List (Int × Rat) → Rat × Rat × Rat × Rat)
    (df : List TechCostRow) : List RegRow :=
  (tripleProduct (uniqueFirst (df.map (fun r => r.ssp_scenario)))
      (uniqueFirst (df.map (fun r => r.message_technology)))
      (uniqueFirst (df.map (fun r => r.r11_region)))).flatMap fun t =>
    if (techSubset df t).isEmpty then []
    else [regRowOf fit df t]

/-! ## Embedding of `tools/costs/projections.py`

The upstream producers `apply_regional_differentiation`,
`project_ref_region_inv_costs_using_learning_rates`,
`adjust_cost_ratios_with_gdp` and `apply_splines_to_convergence` are imported
from modules absent from the repository snapshot; their outputs enter the
embedded functions as explicit arguments (for the spline smoothing, as a
function argument), so every theorem below holds for all of their possible
outputs.  Only the columns that `projections.py` itself reads appear in the
row schemas. -/

/-- Modelled from the spec: `FIRST_MODEL_YEAR`, imported from
`tools.costs.config`, which is absent from the snapshot.  `splines.py` in the
snapshot fixes `first_model_year = 2020` and the docstrings of
`projections.py` describe projections starting from 2020, so the constant is
modelled as 2020.  No theorem below depends on the numeric value. -/
def FIRST_MODEL_YEAR : Int := 2020

/-- A row of the output of `apply_regional_differentiation`: the columns of it
that `projections.py` reads (`message_technology`, `region`,
`reg_cost_base_year`, `reg_cost_ratio`, `fix_ratio`). -/
structure RegionDiffRow where
  message_technology : String
  region : String
  reg_cost_base_year : Rat
  reg_cost_ratio : Rat
  fix_ratio : Rat
deriving DecidableEq, Repr

/-- A row of the output of `project_ref_region_inv_costs_using_learning_rates`:
the columns of it that `projections.py` reads. -/
structure RefRegLearningRow where
  message_technology : String
  scenario : String
  year : Int
  inv_cost_ref_region_learning : Rat
deriving DecidableEq, Repr

/-- A row of the output of `adjust_cost_ratios_with_gdp`: the columns of it
that `projections.py` reads. -/
structure GdpAdjRow where
  scenario_version : String
  scenario : String
  message_technology : String
  region : String
  year : Int
  reg_cost_ratio_adj : Rat
deriving DecidableEq, Repr

/-- A row of the output of `apply_splines_to_convergence`: the key columns and
the smoothed column `inv_cost_splines`. -/
structure SplineRow where
  scenario : String
  message_technology : String
  region : String
  year : Int
  inv_cost_splines : Rat
deriving DecidableEq, Repr

/-- A row of the dataframe returned by the three `create_projections_*`
functions after `reindex` (source lines 118-129, 239-250, 361-372):
`scenario_version`, `scenario`, `message_technology`, `region`, `year`,
`inv_cost`, `fix_cost`.  The cost columns are `Option Rat` because the outer
merge of the convergence method can leave them as `NaN`. -/
structure CostRow where
  scenario_version : String
  scenario : String
  message_technology : String
  region : String
  year : Int
  inv_cost : Option Rat
  fix_cost : Option Rat
deriving DecidableEq, Repr

/-- Multiplication of float columns with `NaN` propagation: `NaN * x = NaN`. -/
def mulOpt : Option Rat → Option Rat → Option Rat
  | some a, some b => some (a * b)
  | _, _ => none

/-- Source lines 81-84 (and the identical 176-179, 301-304): the scenario
filter list.  `"all"` selects the six scenarios, anything else is upper-cased
and used as a single value. -/
def scenario_list (in_scenario : String) : List String :=
  if in_scenario == "all" then ["SSP1", "SSP2", "SSP3", "SSP4", "SSP5", "LED"]
  else [in_scenario.toUpper]

/-- The Python local `scen` (source lines 80-87): when `in_scenario` is `None`
the `if` body never runs, so the later read `scen = scen` raises
`UnboundLocalError`. -/
def pyScen : Option String → Except PyErr (List String)
  | some s => Except.ok (scenario_list s)
  | none => Except.error PyErr.unboundLocal

/-- The Python local `scen_vers` (source lines 183-193): set only for the
inputs `"all"`, `"updated"` and `"original"`; for any other non-`None` input,
and for `None`, the later read `scen_vers = scen_vers` raises
`UnboundLocalError`. -/
def pyScenVers : Option String → Except PyErr (List String)
  | some v =>
    if v == "all" then Except.ok ["Review (2023)", "Previous (2013)"]
    else if v == "updated" then Except.ok ["Review (2023)"]
    else if v == "original" then Except.ok ["Previous (2013)"]
    else Except.error PyErr.unboundLocal
  | none => Except.error PyErr.unboundLocal

/-- Source line 108 (also 227, 328): the inner merge of the regional
differentiation frame with the reference-region learning frame
`on="message_technology"`: all pairs of rows agreeing on the key. -/
def mergeLearning (d1 : List RegionDiffRow) (d2 : List RefRegLearningRow) :
    List (RegionDiffRow × RefRegLearningRow) :=
  d1.flatMap fun a =>
    (d2.filter fun b => a.message_technology == b.message_technology).map
      fun b => (a, b)

/-- Source lines 228-230: the further inner merge with the GDP-adjusted cost
ratios `on=["scenario", "message_technology", "region", "year"]`. -/
def mergeGdp (m : List (RegionDiffRow × RefRegLearningRow))
    (d3 : List GdpAdjRow) :
    List ((RegionDiffRow × RefRegLearningRow) × GdpAdjRow) :=
  m.flatMap fun a =>
    (d3.filter fun g =>
        a.2.scenario == g.scenario
          && a.1.message_technology == g.message_technology
          && a.1.region == g.region && a.2.year == g.year).map
      fun g => (a, g)

/-- Source lines 109-117, the `assign` of the learning method:
`inv_cost = np.where(year <= FIRST_MODEL_YEAR, reg_cost_base_year, inv_cost_ref_region_learning * reg_cost_ratio)`,
`fix_cost = inv_cost * fix_ratio`, `scenario_version = "Not applicable"`. -/
def costRowLearning (m : RegionDiffRow × RefRegLearningRow) : CostRow :=
  let inv : Rat :=
    if m.2.year ≤ FIRST_MODEL_YEAR then m.1.reg_cost_base_year
    else m.2.inv_cost_ref_region_learning * m.1.reg_cost_ratio
  { scenario_version := "Not applicable"
    scenario := m.2.scenario
    message_technology := m.1.message_technology
    region := m.1.region
    year := m.2.year
    inv_cost := some inv
    fix_cost := some (inv * m.1.fix_ratio) }

/-- Source lines 70-133, `create_projections_learning`.  The first statement
of the body is `print("Selected scenario: " + in_scenario)`, whose argument
raises `TypeError` when `in_scenario` is `None`; the `scen = scen` rebinding
raises `UnboundLocalError` in that case but is never reached.  On the success
path: filter the learning frame by scenario, merge, assign the cost columns,
reindex and drop duplicates. -/
def create_projections_learning (in_scenario : Option String)
    (df_region_diff : List RegionDiffRow)
    (df_ref_reg_learning : List RefRegLearningRow) :
    Except PyErr (List CostRow) :=
  match pyStrConcat "Selected scenario: " in_scenario with
  | Except.error e => Except.error e
  | Except.ok _ =>
    match pyScen in_scenario with
    | Except.error e => Except.error e
    | Except.ok _ =>
      let dfl :=
        match in_scenario with
        | some s =>
          df_ref_reg_learning.filter fun b => (scenario_list s).contains b.scenario
        | none => df_ref_reg_learning
      Except.ok
        (uniqueFirst ((mergeLearning df_region_diff dfl).map costRowLearning))

/-- Source lines 231-238, the `assign` of the GDP method:
`inv_cost = np.where(year <= FIRST_MODEL_YEAR, reg_cost_base_year, inv_cost_ref_region_learning * reg_cost_ratio_adj)`,
`fix_cost = inv_cost * fix_ratio`; `scenario_version` comes from the merged
GDP-adjustment row. -/
def costRowGdp (m : (RegionDiffRow × RefRegLearningRow) × GdpAdjRow) : CostRow :=
  let inv : Rat :=
    if m.1.2.year ≤ FIRST_MODEL_YEAR then m.1.1.reg_cost_base_year
    else m.1.2.inv_cost_ref_region_learning * m.2.reg_cost_ratio_adj
  { scenario_version := m.2.scenario_version
    scenario := m.1.2.scenario
    message_technology := m.1.1.message_technology
    region := m.1.1.region
    year := m.1.2.year
    inv_cost := some inv
    fix_cost := some (inv * m.1.1.fix_ratio) }

/-- Source lines 136-254, `create_projections_gdp`.  The two `print`
statements raise `TypeError` when `in_scenario` or `in_scenario_version` is
`None`; the locals `scen` and `scen_vers` raise `UnboundLocalError` when
unset.  On the success path: filter the learning frame by scenario and the
GDP-adjustment frame by scenario version and scenario, perform the two inner
merges, assign the cost columns, reindex and drop duplicates. -/
def create_projections_gdp (in_scenario in_scenario_version : Option String)
    (df_region_diff : List RegionDiffRow)
    (df_ref_reg_learning : List RefRegLearningRow)
    (df_adj_cost_ratios : List GdpAdjRow) :
    Except PyErr (List CostRow) :=
  match pyStrConcat "Selected scenario: " in_scenario with
  | Except.error e => Except.error e
  | Except.ok _ =>
    match pyStrConcat "Selected scenario version: " in_scenario_version with
    | Except.error e => Except.error e
    | Except.ok _ =>
      match pyScen in_scenario with
      | Except.error e => Except.error e
      | Except.ok _ =>
        match pyScenVers in_scenario_version with
        | Except.error e => Except.error e
        | Except.ok scen_vers =>
          let dfl :=
            match in_scenario with
            | some s =>
              df_ref_reg_learning.filter fun b =>
                (scenario_list s).contains b.scenario
            | none => df_ref_reg_learning
          let dfa :=
            match in_scenario with
            | some s =>
              df_adj_cost_ratios.filter fun g =>
                scen_vers.contains g.scenario_version
                  && (scenario_list s).contains g.scenario
            | none => df_adj_cost_ratios
          Except.ok
            (uniqueFirst
              ((mergeGdp (mergeLearning df_region_diff dfl) dfa).map costRowGdp))

/-- Source lines 329-339, the `assign` of the convergence method:
`inv_cost_converge = np.where(year <= FIRST_MODEL_YEAR, reg_cost_base_year, np.where(year < convergence_year, inv_cost_ref_region_learning * reg_cost_ratio, inv_cost_ref_region_learning))`. -/
def inv_cost_converge (in_convergence_year : Int)
    (m : RegionDiffRow × RefRegLearningRow) : Rat :=
  if m.2.year ≤ FIRST_MODEL_YEAR then m.1.reg_cost_base_year
  else if m.2.year < in_convergence_year then
    m.2.inv_cost_ref_region_learning * m.1.reg_cost_ratio
  else m.2.inv_cost_ref_region_learning

/-- A row of `df_pre_costs` (source lines 327-341): the merged row together
with the assigned `inv_cost_converge` column. -/
def preCosts (in_convergence_year : Int)
    (d1 : List RegionDiffRow) (d2 : List RefRegLearningRow) :
    List ((RegionDiffRow × RefRegLearningRow) × Rat) :=
  uniqueFirst ((mergeLearning d1 d2).map fun m => (m, inv_cost_converge in_convergence_year m))

/-- Key agreement for the outer merge of `df_pre_costs` with `df_splines`
`on=["scenario", "message_technology", "region", "year"]` (source lines
351-355). -/
def convergeKeysMatch (a : (RegionDiffRow × RefRegLearningRow) × Rat)
    (b : SplineRow) : Bool :=
  a.1.2.scenario == b.scenario
    && a.1.1.message_technology == b.message_technology
    && a.1.1.region == b.region && a.1.2.year == b.year

/-- The outer merge (`how="outer"`) of `df_pre_costs` with `df_splines`:
matched pairs, then left-only rows, then right-only rows, unmatched sides
filled with `NaN` (`none`). -/
def outerMergeConverge (pre : List ((RegionDiffRow × RefRegLearningRow) × Rat))
    (sp : List SplineRow) :
    List (Option ((RegionDiffRow × RefRegLearningRow) × Rat) × Option SplineRow) :=
  (pre.flatMap fun a =>
    let ms := sp.filter (convergeKeysMatch a)
    if ms.isEmpty then [(some a, none)]
    else ms.map fun b => (some a, some b))
  ++ (sp.filter fun b => pre.all fun a => !convergeKeysMatch a b).map
      fun b => (none, some b)

/-- Source lines 356-372, the rename and `assign` of the convergence method:
`inv_cost` is the renamed `inv_cost_splines` column,
`fix_cost = inv_cost * fix_ratio` (`NaN` where a side of the outer merge is
missing), `scenario_version = "Not applicable"`; key columns are filled from
whichever side is present. -/
def costRowConverge
    (m : Option ((RegionDiffRow × RefRegLearningRow) × Rat) × Option SplineRow) :
    CostRow :=
  let inv : Option Rat := m.2.map fun b => b.inv_cost_splines
  { scenario_version := "Not applicable"
    scenario :=
      match m.1, m.2 with
      | some a, _ => a.1.2.scenario
      | none, some b => b.scenario
      | none, none => ""
    message_technology :=
      match m.1, m.2 with
      | some a, _ => a.1.1.message_technology
      | none, some b => b.message_technology
      | none, none => ""
    region :=
      match m.1, m.2 with
      | some a, _ => a.1.1.region
      | none, some b => b.region
      | none, none => ""
    year :=
      match m.1, m.2 with
      | some a, _ => a.1.2.year
      | none, some b => b.year
      | none, none => 0
    inv_cost := inv
    fix_cost := mulOpt inv (m.1.map fun a => a.1.1.fix_ratio) }

/-- Source lines 257-376, `create_projections_converge`.  The first statement
prints `"Selected scenario: " + in_scenario`, raising `TypeError` for `None`.
On the success path: filter the learning frame by scenario, merge and assign
`inv_cost_converge`, hand `df_pre_costs` together with the given convergence
year to `apply_splines_to_convergence` (the argument `splines`, absent from
the snapshot), outer-merge the spline output back, assign `fix_cost`, reindex
and drop duplicates. -/
def create_projections_converge (in_scenario : Option String)
    (in_convergence_year : Int)
    (splines : List ((RegionDiffRow × RefRegLearningRow) × Rat) → Int → List SplineRow)
    (df_region_diff : List RegionDiffRow)
    (df_ref_reg_learning : List RefRegLearningRow) :
    Except PyErr (List CostRow) :=
  match pyStrConcat "Selected scenario: " in_scenario with
  | Except.error e => Except.error e
  | Except.ok _ =>
    match pyScen in_scenario with
    | Except.error e => Except.error e
    | Except.ok _ =>
      let dfl :=
        match in_scenario with
        | some s =>
          df_ref_reg_learning.filter fun b => (scenario_list s).contains b.scenario
        | none => df_ref_reg_learning
      let df_pre_costs := preCosts in_convergence_year df_region_diff dfl
      let df_splines := splines df_pre_costs in_convergence_year
      Except.ok
        (uniqueFirst
          ((outerMergeConverge df_pre_costs df_splines).map costRowConverge))

/-! ## The stage sequence of `create_cost_projections` (source lines 652-739)

`create_cost_projections` validates the configuration, dispatches on
`config.method` to one of the three `create_projections_*` functions (each of
which first applies regional differentiation and then learning-rate
extrapolation, the GDP method additionally GDP adjustment, the convergence
method additionally spline smoothing), and then builds the output frames for
`config.format`.  The inductive types below record, in source order, which
helper is invoked for each valid configuration; each `Stage` value names one
helper call in the source. -/

/-- One processing stage of the pipeline: a call of the named helper. -/
inductive Stage where
  /-- `apply_regional_differentiation` (lines 90, 196, 310). -/
  | regional_diff
  /-- `project_ref_region_inv_costs_using_learning_rates` (lines 97, 203, 317). -/
  | learning_extrapolation
  /-- `adjust_cost_ratios_with_gdp` (line 211). -/
  | gdp_adjustment
  /-- `apply_splines_to_convergence` (line 344). -/
  | spline_convergence
  /-- `apply_polynominal_regression_NAM_costs` (`splines.py` line 171). -/
  | polynomial_regression
  /-- `create_message_outputs` (lines 728, 733). -/
  | message_outputs
  /-- `create_iamc_outputs` (line 736). -/
  | iamc_outputs
deriving DecidableEq, Repr

/-- The valid values of `config.method` (docstring of
`create_cost_projections`: options are `learning`, `gdp`, `convergence`). -/
inductive Method where
  | learning
  | gdp
  | convergence
deriving DecidableEq, Repr

/-- The valid values of `config.format` (docstring: options are `message` and
`iamc`). -/
inductive OutFormat where
  | message
  | iamc
deriving DecidableEq, Repr

/-- The helper calls made by the dispatched `create_projections_*` function,
in source order. -/
def method_stages : Method → List Stage
  | Method.learning => [Stage.regional_diff, Stage.learning_extrapolation]
  | Method.gdp =>
    [Stage.regional_diff, Stage.learning_extrapolation, Stage.gdp_adjustment]
  | Method.convergence =>
    [Stage.regional_diff, Stage.learning_extrapolation, Stage.spline_convergence]

/-- The output-formatting calls made after the dispatch (source lines
726-738): `create_message_outputs` always, `create_iamc_outputs` additionally
for the `iamc` format. -/
def format_stages : OutFormat → List Stage
  | OutFormat.message => [Stage.message_outputs]
  | OutFormat.iamc => [Stage.message_outputs, Stage.iamc_outputs]

/-- The full, ordered sequence of helper calls that `create_cost_projections`
performs for a valid configuration. -/
def create_cost_projections_stages (m : Method) (f : OutFormat) : List Stage :=
  method_stages m ++ format_stages f

/-! ## Embedding of `model/transport/data/CHN_IND.py` -/

/-- Source lines 30-35: the module-level dict `FILES`, as an association list
of (key, (file name, rows to skip from the bottom)). -/
def FILES_initial : List (String × String × Nat) :=
  [("Passenger activity", ("CHN_activity-passenger.csv", 4)),
   ("Vehicle stock civil", ("CHN_stock-civil.csv", 5)),
   ("Vehicle stock private", ("CHN_stock-private.csv", 1)),
   ("Freight activity", ("CHN_activity-freight.csv", 5))]

/-- Python `del d[k]` on a dict: removes the key when present, raises
`KeyError` when absent. -/
def pyDelKey (fs : List (String × String × Nat)) (k : String) :
    Except PyErr (List (String × String × Nat)) :=
  if fs.any (fun p => p.1 == k) then Except.ok (fs.filter fun p => p.1 != k)
  else Except.error PyErr.keyError

/-- Source lines 136-235, `get_chn_ind_data`, with the module-level `FILES`
dict made explicit as a state argument.  The first statement of the body is
`if not private_vehicles: del FILES["Vehicle stock private"]`, which mutates
the module-level dict before anything else runs.  The remainder of the body
(lines 159-235) only reads the files named in `FILES` and external data
sources; it is abstracted as the argument `body`, a pure function of the
`FILES` state, so the theorems hold for every possible remainder.  The result
pairs the returned dataframe with the `FILES` state left behind. -/
def get_chn_ind_data {α : Type} (body : List (String × String × Nat) → α)
    (private_vehicles : Bool) (files : List (String × String × Nat)) :
    Except PyErr (α × List (String × String × Nat)) :=
  if !private_vehicles then
    match pyDelKey files "Vehicle stock private" with
    | Except.error e => Except.error e
    | Except.ok fs2 => Except.ok (body fs2, fs2)
  else Except.ok (body files, files)

/-- A row of the tidy dataframe built by `get_chn_ind_data` before its final
unit-conversion loop: columns `ISO Code`, `Variable`, `Mode/vehicle type`,
`Units`, `Year`, `Value`. -/
structure ChnRow where
  iso_code : String
  variable_name : String
  mode : String
  units : String
  year : Int
  value : Rat
deriving DecidableEq, Repr

/-- Source lines 12-17: the module-level `UNITS` dict as an association list
of (variable, (factor, input unit, output unit)); `None` as input unit means
the output unit is used for both sides (`unit_out = unit_out or unit_in`
pattern reversed in line 220). -/
def UNITS : List (String × Rat × Option String × String) :=
  [("Population", ((1 / 1000000 : Rat), (none, "dimensionless"))),
   ("Vehicle Stock", ((10000 : Rat), (some "vehicle", "thousand vehicle"))),
   ("Passenger-Kilometers", ((100 : Rat), (some "megapkm", "gigapkm"))),
   ("Freight Ton-Kilometers", ((100 : Rat), (some "megatkm", "gigatkm")))]

/-- Boolean-mask selection `df[df["Variable"] == var]`: per pandas semantics
it returns a new dataframe (a copy), not a view of `df`. -/
def pdGetItemMask (df : List ChnRow) (var : String) : List ChnRow :=
  df.filter fun r => r.variable_name == var

/-- Source lines 221-233, the body of one iteration of the unit-conversion
loop: build the converted series (`registry.Quantity(factor * values,
unit_in).to(unit_out)`; the conversion itself runs in the external `pint`
library, abstracted as `conv` from the scaled magnitude and the unit pair to
the converted magnitude), then write it into the copy returned by the
boolean-mask selection.  The written copy is the value of this function. -/
def chn_unit_loop_converted (conv : Rat → Option String → String → Rat)
    (df : List ChnRow) (var : String) (factor : Rat)
    (unit_in : Option String) (unit_out : String) : List ChnRow :=
  (pdGetItemMask df var).map fun r =>
    { r with
      value := conv (factor * r.value) unit_in unit_out
      units := unit_out }

/-- Source lines 218-233, the whole unit-conversion loop of
`get_chn_ind_data`: for each entry of `UNITS` the converted copy is computed
and assigned into `df[df["Variable"] == var]["Value"]` (and `["Units"]`) —
chained indexing, which writes into the temporary copy returned by the mask
selection and leaves the dataframe bound to `df` unchanged (the source's own
`TODO` comment at lines 230-231 records that the values are not stored).  The
loop therefore threads `df` through unmodified. -/
def chn_unit_loop (conv : Rat → Option String → String → Rat)
    (df : List ChnRow) : List ChnRow :=
  UNITS.foldl
    (fun acc entry =>
      let _written := chn_unit_loop_converted conv acc entry.1 entry.2.1
        entry.2.2.1 entry.2.2.2
      acc)
    df

/-! ## Embedding of `model/material/data_buildings.py` -/

/-- A row of the long-form building input after the melt of source lines
38-44: `Region`, `Variable`, `Year`, `value`. -/
structure BldRaw where
  region : String
  variable_name : String
  year : Int
  value : Rat
deriving DecidableEq, Repr

/-- The floor-space variable used as the denominator of every intensity
(source line 47). -/
def floor_space_var : String := "Energy Service|Residential|Floor Space"

/-- The cell of the (Region, Year) × Variable pivot (source lines 38-44): the
value of the first row carrying the triple, `NaN` (`none`) when no row does. -/
def pivotLookup (df : List BldRaw) (region : String) (year : Int)
    (v : String) : Option Rat :=
  (df.find? fun r =>
      r.region == region && r.year == year && r.variable_name == v).map
    fun r => r.value

/-- Float column division with `NaN` propagation: a missing operand gives
`NaN`; a zero denominator gives a non-finite float, modelled `none` (the
theorems below only use it under a nonzero-denominator hypothesis, where the
model and pandas agree). -/
def pdDiv : Option Rat → Option Rat → Option Rat
  | some a, some b => if b == 0 then none else some (a / b)
  | _, _ => none

/-- A row of `bld_intensity_long`, the first dataframe returned by
`read_timeseries_buildings` (source lines 57-77): columns `node`, `year`,
`value`, `unit`.  The `commodity` and `type` columns (source lines 67-70,
string splitting and lower-casing of the variable name) are not read by any
claim and are omitted from the schema. -/
structure IntensityRow where
  node : String
  year : Int
  value : Option Rat
  unit : String
deriving DecidableEq, Repr

/-- Source lines 46-77, the intensity part of `read_timeseries_buildings`:
pivot the input to one row per (Region, Year) with one column per variable;
divide every variable column by the `Energy Service|Residential|Floor Space`
column of the same row (line 47), suffix the column names with `|Intensity`
(line 48) and drop the floor-space intensity column (line 51); melt back to
long form, keep the rows whose variable contains `Intensity` (lines 60-62),
set `unit = "kg/m2"` for every row (line 71), drop the `Variable` column and
finally drop the rows whose value is `NaN` (lines 76-77). -/
def read_timeseries_buildings_intensity (df : List BldRaw) : List IntensityRow :=
  let idx := uniqueFirst (df.map fun r => (r.region, r.year))
  let intensity_cols :=
    (uniqueFirst (df.map fun r => r.variable_name)).filter
      fun v => v != floor_space_var
  (idx.flatMap fun p =>
    intensity_cols.map fun v =>
      { node := p.1
        year := p.2
        value :=
          pdDiv (pivotLookup df p.1 p.2 v) (pivotLookup df p.1 p.2 floor_space_var)
        unit := "kg/m2" }).filter
    fun r => !r.value.isNone

/-! ## Helper lemmas -/

theorem mem_uniqueFirst_aux {α : Type} [DecidableEq α] (l acc : List α) (x : α) :
    x ∈ l.foldl (fun acc x => if x ∈ acc then acc else acc ++ [x]) acc ↔
      x ∈ acc ∨ x ∈ l := by
  induction l generalizing acc with
  | nil => simp
  | cons a t ih =>
    simp only [List.foldl_cons]
    by_cases h : a ∈ acc
    · rw [if_pos h, ih]
      constructor
      · rintro (h1 | h1)
        · exact Or.inl h1
        · exact Or.inr (List.mem_cons_of_mem a h1)
      · rintro (h1 | h1)
        · exact Or.inl h1
        · rcases List.mem_cons.1 h1 with h2 | h2
          · exact Or.inl (h2 ▸ h)
          · exact Or.inr h2
    · rw [if_neg h, ih]
      simp only [List.mem_append, List.mem_singleton, List.mem_cons]
      tauto

theorem mem_uniqueFirst {α : Type} [DecidableEq α] (l : List α) (x : α) :
    x ∈ uniqueFirst l ↔ x ∈ l := by
  rw [uniqueFirst, mem_uniqueFirst_aux]
  simp

theorem nodup_uniqueFirst_aux {α : Type} [DecidableEq α] (l : List α) :
    ∀ acc : List α, acc.Nodup →
      (l.foldl (fun acc x => if x ∈ acc then acc else acc ++ [x]) acc).Nodup := by
  induction l with
  | nil => intro acc h; simpa using h
  | cons a t ih =>
    intro acc h
    simp only [List.foldl_cons]
    by_cases ha : a ∈ acc
    · rw [if_pos ha]; exact ih acc h
    · rw [if_neg ha]
      exact ih (acc ++ [a]) (by simp [List.nodup_append, h, ha])

theorem nodup_uniqueFirst {α : Type} [DecidableEq α] (l : List α) :
    (uniqueFirst l).Nodup :=
  nodup_uniqueFirst_aux l [] List.nodup_nil

theorem mem_tripleProduct (a b c : List String) (t : String × String × String) :
    t ∈ tripleProduct a b c ↔ t.1 ∈ a ∧ t.2.1 ∈ b ∧ t.2.2 ∈ c := by
  obtain ⟨i, j, k⟩ := t
  simp only [tripleProduct, List.mem_flatMap, List.mem_map, Prod.mk.injEq]
  constructor
  · rintro ⟨i1, hi, j1, hj, k1, hk, rfl, rfl, rfl⟩
    exact ⟨hi, hj, hk⟩
  · rintro ⟨hi, hj, hk⟩
    exact ⟨i, hi, j, hj, k, hk, rfl, rfl, rfl⟩

theorem nodup_tripleProduct (a b c : List String) (ha : a.Nodup) (hb : b.Nodup)
    (hc : c.Nodup) : (tripleProduct a b c).Nodup := by
  have h : tripleProduct a b c = List.product a (List.product b c) := by
    simp only [tripleProduct, List.product, List.map_flatMap, List.map_map]
    rfl
  rw [h]
  exact ha.product (hb.product hc)

theorem flatMap_eq_nil_of_forall {α β : Type} (l : List α) (g : α → List β)
    (h : ∀ x ∈ l, g x = []) : l.flatMap g = [] := by
  induction l with
  | nil => rfl
  | cons a t ih =>
    rw [List.flatMap_cons, h a (List.mem_cons_self a t),
      ih fun x hx => h x (List.mem_cons_of_mem a hx)]
    rfl

theorem flatMap_eq_single_of_nodup {α β : Type} (l : List α)
    (g : α → List β) (tgt : α) : tgt ∈ l → l.Nodup →
    (∀ x ∈ l, x ≠ tgt → g x = []) → l.flatMap g = g tgt := by
  induction l with
  | nil => intro hmem _ _; cases hmem
  | cons a t ih =>
    intro hmem hnd hother
    rw [List.flatMap_cons]
    by_cases heq : a = tgt
    · subst heq
      have ht : t.flatMap g = [] := by
        refine flatMap_eq_nil_of_forall t g fun x hx => ?_
        refine hother x (List.mem_cons_of_mem a hx) fun hxa => ?_
        exact (List.nodup_cons.1 hnd).1 (hxa ▸ hx)
      rw [ht, List.append_nil]
    · have h1 : g a = [] := hother a (List.mem_cons_self a t) heq
      have htgt : tgt ∈ t := by
        rcases List.mem_cons.1 hmem with h2 | h2
        · exact absurd h2.symm heq
        · exact h2
      rw [h1, List.nil_append]
      exact ih htgt (List.nodup_cons.1 hnd).2 fun x hx =>
        hother x (List.mem_cons_of_mem a hx)

theorem filter_flatMap_comm {α β : Type} (l : List α) (g : α → List β)
    (p : β → Bool) : (l.flatMap g).filter p = l.flatMap fun x => (g x).filter p := by
  induction l with
  | nil => rfl
  | cons a t ih => rw [List.flatMap_cons, List.filter_append, ih, List.flatMap_cons]

/-! ## Claim theorems -/

/-- C1 (counterexample): the claim states that for every valid configuration
`create_cost_projections` chains regional differentiation, learning-rate
extrapolation, GDP-adjustment (method `gdp`), spline-based convergence
smoothing (method `convergence`) and polynomial regression, in that order.
For the valid configuration method = `gdp`, format = `message` (the default
method), the pipeline performs no polynomial-regression stage at all:
`apply_polynominal_regression_NAM_costs` is never invoked by
`create_cost_projections`. -/
theorem c1_no_polynomial_regression_stage :
    Stage.polynomial_regression ∉
      create_cost_projections_stages Method.gdp OutFormat.message := by
  decide

/-- C1 (amended): for every valid configuration, `create_cost_projections`
chains regional differentiation and learning-rate extrapolation, followed by
GDP-adjustment exactly when the method is `gdp` and by spline-based
convergence smoothing exactly when the method is `convergence`, in that
order, followed by the output-format stages; polynomial regression is not a
stage of the pipeline for any valid configuration. -/
theorem c1_stage_order :
    (∀ f, create_cost_projections_stages Method.learning f
        = [Stage.regional_diff, Stage.learning_extrapolation] ++ format_stages f)
    ∧ (∀ f, create_cost_projections_stages Method.gdp f
        = [Stage.regional_diff, Stage.learning_extrapolation,
            Stage.gdp_adjustment] ++ format_stages f)
    ∧ (∀ f, create_cost_projections_stages Method.convergence f
        = [Stage.regional_diff, Stage.learning_extrapolation,
            Stage.spline_convergence] ++ format_stages f)
    ∧ (∀ m f, Stage.polynomial_regression ∉ create_cost_projections_stages m f) := by
  refine ⟨fun f => rfl, fun f => rfl, fun f => rfl, fun m f => ?_⟩
  cases m <;> cases f <;> decide

/-- C9 (confirmed): each of `create_projections_learning`,
`create_projections_gdp` and `create_projections_converge` starts with
`print("Selected scenario: " + in_scenario)`, whose argument raises
`TypeError` when `in_scenario` is `None`; none of the three can return a
dataframe for a `None` scenario, so the unfiltered branch of the scenario
query never completes. -/
theorem c9_none_scenario_raises :
    (∀ (d1 : List RegionDiffRow) (d2 : List RefRegLearningRow),
      create_projections_learning none d1 d2 = Except.error PyErr.typeError)
    ∧ (∀ (sv : Option String) (d1 : List RegionDiffRow)
        (d2 : List RefRegLearningRow) (d3 : List GdpAdjRow),
      create_projections_gdp none sv d1 d2 d3 = Except.error PyErr.typeError)
    ∧ (∀ (conv : Int)
        (spl : List ((RegionDiffRow × RefRegLearningRow) × Rat) → Int → List SplineRow)
        (d1 : List RegionDiffRow) (d2 : List RefRegLearningRow),
      create_projections_converge none conv spl d1 d2
        = Except.error PyErr.typeError) :=
  ⟨fun _ _ => rfl, fun _ _ _ _ => rfl, fun _ _ _ _ => rfl⟩

/-- C6 (counterexample): called with `private_vehicles = False` (the default)
from the initial module state, `get_chn_ind_data` successfully returns but
removes the key `"Vehicle stock private"` from the module-level `FILES` dict,
so the state after the call differs from the initial state; a second,
identical invocation then raises `KeyError` instead of returning the same
result.  This falsifies the claim that no invocation changes module-level
state and that two successive invocations with the same arguments return the
same result. -/
theorem c6_files_mutation_counterexample :
    get_chn_ind_data (fun fs => fs.length) false FILES_initial
        = Except.ok (3,
          [("Passenger activity", ("CHN_activity-passenger.csv", 4)),
           ("Vehicle stock civil", ("CHN_stock-civil.csv", 5)),
           ("Freight activity", ("CHN_activity-freight.csv", 5))])
    ∧ [("Passenger activity", (("CHN_activity-passenger.csv" : String), 4)),
       ("Vehicle stock civil", ("CHN_stock-civil.csv", 5)),
       ("Freight activity", ("CHN_activity-freight.csv", 5))] ≠ FILES_initial
    ∧ get_chn_ind_data (fun fs => fs.length) false
        [("Passenger activity", ("CHN_activity-passenger.csv", 4)),
         ("Vehicle stock civil", ("CHN_stock-civil.csv", 5)),
         ("Freight activity", ("CHN_activity-freight.csv", 5))]
        = Except.error PyErr.keyError := by
  refine ⟨rfl, by decide, rfl⟩

/-- C6 (amended): `get_chn_ind_data` is stateless only for
`private_vehicles = True`: it then leaves the module-level `FILES` dict
unchanged and deterministically returns the value of its body on that state,
so two successive invocations with the same arguments read the same files and
return the same result.  With `private_vehicles = False` the first invocation
deletes `"Vehicle stock private"` from `FILES` and a second one raises
`KeyError`. -/
theorem c6_stateless_when_private_vehicles :
    ∀ (α : Type) (body : List (String × String × Nat) → α)
      (files : List (String × String × Nat)),
      get_chn_ind_data body true files = Except.ok (body files, files) :=
  fun _ _ _ => rfl

/-- C10 (confirmed): the unit-conversion loop at the end of
`get_chn_ind_data` writes the converted magnitudes and units into the
temporary copy produced by the chained indexing
`df[df["Variable"] == var][...]`, so the dataframe it returns is exactly the
dataframe from before the loop, for every conversion function and every
input; and the conversion computed inside the loop does differ from the
unchanged rows (shown at a concrete `Vehicle Stock` row, where the converted
value is `10000 * 5` and the unit becomes `thousand vehicle`). -/
theorem c10_unit_loop_leaves_df_unchanged :
    (∀ (conv : Rat → Option String → String → Rat) (df : List ChnRow),
      chn_unit_loop conv df = df)
    ∧ chn_unit_loop_converted (fun q _ _ => q)
        [⟨"CHN", "Vehicle Stock", "Cars", "10000 units", 2005, 5⟩]
        "Vehicle Stock" 10000 (some "vehicle") "thousand vehicle"
      ≠ pdGetItemMask [⟨"CHN", "Vehicle Stock", "Cars", "10000 units", 2005, 5⟩]
          "Vehicle Stock" :=
  ⟨fun _ _ => rfl, by decide⟩

/-- C2 (confirmed): in `project_capital_costs_using_learning_rates` the 2100
cost equals `cost_region_2021 * (1 - cost_reduction)`; every year `y > 2020`
is projected as `(cost_region_2021 - b) * exp(r * (y - first_technology_year)) + b`
with `b = 0.99 * cost_region_2100` and
`r = (1/80) * log((cost_region_2100 - b) / (cost_region_2021 - b))`; and for
a technology whose `first_technology_year` is 2020 (any original first year
at or before 2020), the projected cost at year 2100 is exactly
`cost_region_2021 * (1 - cost_reduction)`.  The parameters `ex` and `lg`
stand for `np.exp` and `np.log`, assumed to cancel on positive arguments;
positivity of the log argument follows from a positive 2021 cost and a
fractional cost reduction. -/
theorem c2_learning_rate_decay
    (ex lg : Rat → Rat) (hexlg : ∀ q : Rat, 0 < q → ex (lg q) = q)
    (c2021 red : Rat) (h0 : 0 < c2021) (h1 : 0 ≤ red) (h2 : red < 1) :
    cost_region_2100 c2021 red = c2021 * (1 - red)
    ∧ (∀ fty y : Int, 2020 < y →
        ycur ex lg c2021 red fty y
          = (c2021 - learning_b c2021 red)
              * ex (learning_r lg c2021 red * ((y : Rat) - (fty : Rat)))
            + learning_b c2021 red)
    ∧ (∀ fyo : Int, fyo ≤ 2020 →
        ycur ex lg c2021 red (first_technology_year fyo) 2100
          = c2021 * (1 - red)) := by
  have hnum : cost_region_2100 c2021 red - learning_b c2021 red
      = (1 / 100) * (c2021 * (1 - red)) := by
    simp only [cost_region_2100, learning_b, pre_last_year_rate]; ring
  have hden : c2021 - learning_b c2021 red
      = c2021 * (1 / 100 + (99 / 100) * red) := by
    simp only [cost_region_2100, learning_b, pre_last_year_rate]; ring
  have hnum_pos : (0 : Rat) < (1 / 100) * (c2021 * (1 - red)) := by nlinarith
  have hden_pos : (0 : Rat) < c2021 * (1 / 100 + (99 / 100) * red) := by nlinarith
  refine ⟨by simp only [cost_region_2100]; ring, ?_, ?_⟩
  · intro fty y hy
    simp only [ycur, first_model_year]
    rw [if_neg (by omega)]
  · intro fyo hfyo
    have hfty : first_technology_year fyo = 2020 := by
      simp only [first_technology_year, first_model_year]
      rw [if_neg (by omega)]
    rw [hfty]
    simp only [ycur, first_model_year]
    rw [if_neg (by omega)]
    have harg : learning_r lg c2021 red * (((2100 : Int) : Rat) - ((2020 : Int) : Rat))
        = lg ((cost_region_2100 c2021 red - learning_b c2021 red)
            / (c2021 - learning_b c2021 red)) := by
      simp only [learning_r, last_model_year, first_model_year]
      push_cast
      ring
    rw [harg]
    have hqpos : 0 < (cost_region_2100 c2021 red - learning_b c2021 red)
        / (c2021 - learning_b c2021 red) := by
      rw [hnum, hden]; exact div_pos hnum_pos hden_pos
    rw [hexlg _ hqpos]
    have hne : c2021 - learning_b c2021 red ≠ 0 := by
      rw [hden]; exact ne_of_gt hden_pos
    have h5 : (c2021 - learning_b c2021 red) *
        ((cost_region_2100 c2021 red - learning_b c2021 red)
          / (c2021 - learning_b c2021 red))
        = cost_region_2100 c2021 red - learning_b c2021 red := by
      field_simp
    rw [h5]
    simp only [cost_region_2100]; ring

/-- C2 witness: everything evaluated at `ex = lg = id`,
`cost_region_2021 = 1`, `cost_reduction = 0`. -/
theorem c2_learning_rate_decay_witness :
    cost_region_2100 1 0 = 1 * (1 - 0)
    ∧ (∀ fty y : Int, 2020 < y →
        ycur id id 1 0 fty y
          = (1 - learning_b 1 0)
              * id (learning_r id 1 0 * ((y : Rat) - (fty : Rat)))
            + learning_b 1 0)
    ∧ (∀ fyo : Int, fyo ≤ 2020 →
        ycur id id 1 0 (first_technology_year fyo) 2100 = 1 * (1 - 0)) :=
  c2_learning_rate_decay id id (fun _ _ => rfl) 1 0 (by norm_num) (le_refl 0)
    (by norm_num)

/-- C3 (confirmed): in `create_projections_converge`, for every merged
(technology, region) row the pre-spline column `inv_cost_converge` equals the
base-year regional cost for every year at or before `FIRST_MODEL_YEAR`,
equals the reference-region learning cost times the regional cost ratio for
every year strictly between `FIRST_MODEL_YEAR` and the convergence year, and
equals exactly the reference-region learning cost — a value independent of
the row's region columns, hence identical across regions — for every year at
or after the convergence year; and the function then hands exactly this
series (`df_pre_costs`) together with the given convergence year to
`apply_splines_to_convergence` before the final merge.  The convergence year
is assumed to lie after `FIRST_MODEL_YEAR`, as every valid configuration
(default 2050) does. -/
theorem c3_convergence_pre_spline (conv : Int)
    (hconv : FIRST_MODEL_YEAR < conv) :
    (∀ m : RegionDiffRow × RefRegLearningRow,
      (m.2.year ≤ FIRST_MODEL_YEAR →
        inv_cost_converge conv m = m.1.reg_cost_base_year)
      ∧ (FIRST_MODEL_YEAR < m.2.year → m.2.year < conv →
        inv_cost_converge conv m
          = m.2.inv_cost_ref_region_learning * m.1.reg_cost_ratio)
      ∧ (conv ≤ m.2.year →
        inv_cost_converge conv m = m.2.inv_cost_ref_region_learning))
    ∧ (∀ (s : String)
        (splines : List ((RegionDiffRow × RefRegLearningRow) × Rat) → Int → List SplineRow)
        (d1 : List RegionDiffRow) (d2 : List RefRegLearningRow),
      create_projections_converge (some s) conv splines d1 d2
        = Except.ok (uniqueFirst ((outerMergeConverge
            (preCosts conv d1
              (d2.filter fun b => (scenario_list s).contains b.scenario))
            (splines
              (preCosts conv d1
                (d2.filter fun b => (scenario_list s).contains b.scenario))
              conv)).map costRowConverge))) := by
  constructor
  · intro m
    refine ⟨fun hle => ?_, fun hgt hlt => ?_, fun hge => ?_⟩
    · simp only [inv_cost_converge]
      rw [if_pos hle]
    · simp only [inv_cost_converge]
      rw [if_neg (by omega), if_pos hlt]
    · simp only [inv_cost_converge]
      rw [if_neg (by omega), if_neg (by omega)]
  · intro s splines d1 d2
    rfl

/-- C3 witness: the convergence year 2050 with a concrete merged row, at one
year in each of the three ranges, and the structural conjunct instantiated. -/
theorem c3_convergence_pre_spline_witness :
    (∀ m : RegionDiffRow × RefRegLearningRow,
      (m.2.year ≤ FIRST_MODEL_YEAR →
        inv_cost_converge 2050 m = m.1.reg_cost_base_year)
      ∧ (FIRST_MODEL_YEAR < m.2.year → m.2.year < 2050 →
        inv_cost_converge 2050 m
          = m.2.inv_cost_ref_region_learning * m.1.reg_cost_ratio)
      ∧ (2050 ≤ m.2.year →
        inv_cost_converge 2050 m = m.2.inv_cost_ref_region_learning))
    ∧ (∀ (s : String)
        (splines : List ((RegionDiffRow × RefRegLearningRow) × Rat) → Int → List SplineRow)
        (d1 : List RegionDiffRow) (d2 : List RefRegLearningRow),
      create_projections_converge (some s) 2050 splines d1 d2
        = Except.ok (uniqueFirst ((outerMergeConverge
            (preCosts 2050 d1
              (d2.filter fun b => (scenario_list s).contains b.scenario))
            (splines
              (preCosts 2050 d1
                (d2.filter fun b => (scenario_list s).contains b.scenario))
              2050)).map costRowConverge))) :=
  c3_convergence_pre_spline 2050 (by decide)

/-- C4 (confirmed): every row of a dataframe successfully returned by
`create_projections_gdp` comes from a merged row whose GDP-adjustment
component is one of the rows produced by `adjust_cost_ratios_with_gdp`, and
its `inv_cost` equals the base-year regional cost when the row's year is at
or before `FIRST_MODEL_YEAR`, and the reference-region learning cost times
the GDP-adjusted regional cost ratio `reg_cost_ratio_adj` of that row
otherwise. -/
theorem c4_gdp_inv_cost (in_scenario in_scenario_version : Option String)
    (d1 : List RegionDiffRow) (d2 : List RefRegLearningRow)
    (d3 : List GdpAdjRow) (res : List CostRow)
    (hok : create_projections_gdp in_scenario in_scenario_version d1 d2 d3
      = Except.ok res) :
    ∀ out ∈ res, ∃ m : (RegionDiffRow × RefRegLearningRow) × GdpAdjRow,
      m.2 ∈ d3 ∧ out = costRowGdp m ∧ out.year = m.1.2.year
      ∧ out.inv_cost = some (if out.year ≤ FIRST_MODEL_YEAR
          then m.1.1.reg_cost_base_year
          else m.1.2.inv_cost_ref_region_learning * m.2.reg_cost_ratio_adj) := by
  intro out hout
  rcases in_scenario with _ | s
  · exact Except.noConfusion hok
  rcases in_scenario_version with _ | v
  · exact Except.noConfusion hok
  rcases hsv : pyScenVers (some v) with e | sv
  · rw [create_projections_gdp, pyStrConcat, pyStrConcat, pyScen, hsv] at hok
    exact Except.noConfusion hok
  · rw [create_projections_gdp, pyStrConcat, pyStrConcat, pyScen, hsv] at hok
    have hres : uniqueFirst
        ((mergeGdp (mergeLearning d1
            (d2.filter fun b => (scenario_list s).contains b.scenario))
          (d3.filter fun g =>
            sv.contains g.scenario_version
              && (scenario_list s).contains g.scenario)).map costRowGdp) = res := by
      injection hok
    rw [← hres] at hout
    have hout2 := (mem_uniqueFirst _ _).1 hout
    rcases List.mem_map.1 hout2 with ⟨m, hm, rfl⟩
    rcases List.mem_flatMap.1 hm with ⟨a, _, hmap⟩
    rcases List.mem_map.1 hmap with ⟨g, hg, rfl⟩
    refine ⟨(a, g), ?_, rfl, rfl, rfl⟩
    exact (List.mem_filter.1 (List.mem_filter.1 hg).1).1

/-- C4 witness: a one-row run of the GDP method with scenario `all` and
scenario version `updated`. -/
theorem c4_gdp_inv_cost_witness :
    ∃ m : (RegionDiffRow × RefRegLearningRow) × GdpAdjRow,
      m.2 ∈ [(⟨"Review (2023)", "SSP2", "coal_ppl", "R12_AFR", 2025, 11 / 10⟩ :
          GdpAdjRow)]
      ∧ costRowGdp (((⟨"coal_ppl", "R12_AFR", 1500, 6 / 5, 1 / 40⟩ : RegionDiffRow),
          (⟨"coal_ppl", "SSP2", 2025, 1400⟩ : RefRegLearningRow)),
          (⟨"Review (2023)", "SSP2", "coal_ppl", "R12_AFR", 2025, 11 / 10⟩ :
            GdpAdjRow)) = costRowGdp m
      ∧ (costRowGdp (((⟨"coal_ppl", "R12_AFR", 1500, 6 / 5, 1 / 40⟩ : RegionDiffRow),
          (⟨"coal_ppl", "SSP2", 2025, 1400⟩ : RefRegLearningRow)),
          (⟨"Review (2023)", "SSP2", "coal_ppl", "R12_AFR", 2025, 11 / 10⟩ :
            GdpAdjRow))).year = m.1.2.year
      ∧ (costRowGdp (((⟨"coal_ppl", "R12_AFR", 1500, 6 / 5, 1 / 40⟩ : RegionDiffRow),
          (⟨"coal_ppl", "SSP2", 2025, 1400⟩ : RefRegLearningRow)),
          (⟨"Review (2023)", "SSP2", "coal_ppl", "R12_AFR", 2025, 11 / 10⟩ :
            GdpAdjRow))).inv_cost
        = some (if (costRowGdp (((⟨"coal_ppl", "R12_AFR", 1500, 6 / 5, 1 / 40⟩ :
              RegionDiffRow),
            (⟨"coal_ppl", "SSP2", 2025, 1400⟩ : RefRegLearningRow)),
            (⟨"Review (2023)", "SSP2", "coal_ppl", "R12_AFR", 2025, 11 / 10⟩ :
              GdpAdjRow))).year ≤ FIRST_MODEL_YEAR
          then m.1.1.reg_cost_base_year
          else m.1.2.inv_cost_ref_region_learning * m.2.reg_cost_ratio_adj) :=
  c4_gdp_inv_cost (some "all") (some "updated")
    [⟨"coal_ppl", "R12_AFR", 1500, 6 / 5, 1 / 40⟩]
    [⟨"coal_ppl", "SSP2", 2025, 1400⟩]
    [⟨"Review (2023)", "SSP2", "coal_ppl", "R12_AFR", 2025, 11 / 10⟩]
    [costRowGdp
        ((⟨"coal_ppl", "R12_AFR", 1500, 6 / 5, 1 / 40⟩,
          ⟨"coal_ppl", "SSP2", 2025, 1400⟩),
          ⟨"Review (2023)", "SSP2", "coal_ppl", "R12_AFR", 2025, 11 / 10⟩)]
    rfl
    (costRowGdp
        ((⟨"coal_ppl", "R12_AFR", 1500, 6 / 5, 1 / 40⟩,
          ⟨"coal_ppl", "SSP2", 2025, 1400⟩),
          ⟨"Review (2023)", "SSP2", "coal_ppl", "R12_AFR", 2025, 11 / 10⟩))
    (List.mem_singleton.2 rfl)

/-- C8 (confirmed): in every row of a dataframe successfully returned by any
of the three projection methods, `fix_cost` is exactly `inv_cost` multiplied
by the `fix_ratio` of the regional-differentiation row of the same
technology that the output row was assembled from (for the convergence
method, with `NaN` propagation through the outer merge: a row with no
pre-cost side has `fix_ratio` and hence `fix_cost` equal to `NaN`). -/
theorem c8_fix_cost_is_inv_cost_times_fix_ratio :
    (∀ (s : Option String) (d1 : List RegionDiffRow)
        (d2 : List RefRegLearningRow) (res : List CostRow),
      create_projections_learning s d1 d2 = Except.ok res →
      ∀ out ∈ res, ∃ m : RegionDiffRow × RefRegLearningRow,
        out = costRowLearning m
        ∧ out.message_technology = m.1.message_technology
        ∧ out.fix_cost = mulOpt out.inv_cost (some m.1.fix_ratio))
    ∧ (∀ (s sv : Option String) (d1 : List RegionDiffRow)
        (d2 : List RefRegLearningRow) (d3 : List GdpAdjRow) (res : List CostRow),
      create_projections_gdp s sv d1 d2 d3 = Except.ok res →
      ∀ out ∈ res, ∃ m : (RegionDiffRow × RefRegLearningRow) × GdpAdjRow,
        out = costRowGdp m
        ∧ out.message_technology = m.1.1.message_technology
        ∧ out.fix_cost = mulOpt out.inv_cost (some m.1.1.fix_ratio))
    ∧ (∀ (s : Option String) (conv : Int)
        (spl : List ((RegionDiffRow × RefRegLearningRow) × Rat) → Int → List SplineRow)
        (d1 : List RegionDiffRow) (d2 : List RefRegLearningRow)
        (res : List CostRow),
      create_projections_converge s conv spl d1 d2 = Except.ok res →
      ∀ out ∈ res,
        ∃ m : Option ((RegionDiffRow × RefRegLearningRow) × Rat) × Option SplineRow,
        out = costRowConverge m
        ∧ out.fix_cost
            = mulOpt out.inv_cost (m.1.map fun a => a.1.1.fix_ratio)) := by
  refine ⟨?_, ?_, ?_⟩
  · intro s d1 d2 res hok out hout
    rcases s with _ | s
    · exact Except.noConfusion hok
    rw [create_projections_learning, pyStrConcat, pyScen] at hok
    have hres : uniqueFirst
        ((mergeLearning d1
            (d2.filter fun b => (scenario_list s).contains b.scenario)).map
          costRowLearning) = res := by injection hok
    rw [← hres] at hout
    rcases List.mem_map.1 ((mem_uniqueFirst _ _).1 hout) with ⟨m, _, rfl⟩
    exact ⟨m, rfl, rfl, rfl⟩
  · intro s sv d1 d2 d3 res hok out hout
    rcases s with _ | s
    · exact Except.noConfusion hok
    rcases sv with _ | v
    · exact Except.noConfusion hok
    rcases hsv : pyScenVers (some v) with e | svl
    · rw [create_projections_gdp, pyStrConcat, pyStrConcat, pyScen, hsv] at hok
      exact Except.noConfusion hok
    · rw [create_projections_gdp, pyStrConcat, pyStrConcat, pyScen, hsv] at hok
      have hres : uniqueFirst
          ((mergeGdp (mergeLearning d1
              (d2.filter fun b => (scenario_list s).contains b.scenario))
            (d3.filter fun g =>
              svl.contains g.scenario_version
                && (scenario_list s).contains g.scenario)).map costRowGdp)
          = res := by injection hok
      rw [← hres] at hout
      rcases List.mem_map.1 ((mem_uniqueFirst _ _).1 hout) with ⟨m, _, rfl⟩
      exact ⟨m, rfl, rfl, rfl⟩
  · intro s conv spl d1 d2 res hok out hout
    rcases s with _ | s
    · exact Except.noConfusion hok
    rw [create_projections_converge, pyStrConcat, pyScen] at hok
    have hres : uniqueFirst
        ((outerMergeConverge
            (preCosts conv d1
              (d2.filter fun b => (scenario_list s).contains b.scenario))
            (spl (preCosts conv d1
              (d2.filter fun b => (scenario_list s).contains b.scenario))
              conv)).map costRowConverge) = res := by injection hok
    rw [← hres] at hout
    rcases List.mem_map.1 ((mem_uniqueFirst _ _).1 hout) with ⟨m, _, rfl⟩
    exact ⟨m, rfl, rfl⟩

/-- C8 witness: one-row runs of the three methods. -/
theorem c8_fix_cost_witness :
    (∃ m : RegionDiffRow × RefRegLearningRow,
      costRowLearning ((⟨"coal_ppl", "R12_AFR", 1500, 6 / 5, 1 / 40⟩ : RegionDiffRow),
          (⟨"coal_ppl", "SSP2", 2025, 1400⟩ : RefRegLearningRow))
        = costRowLearning m
      ∧ (costRowLearning ((⟨"coal_ppl", "R12_AFR", 1500, 6 / 5, 1 / 40⟩ : RegionDiffRow),
          (⟨"coal_ppl", "SSP2", 2025, 1400⟩ : RefRegLearningRow))).message_technology
          = m.1.message_technology
      ∧ (costRowLearning ((⟨"coal_ppl", "R12_AFR", 1500, 6 / 5, 1 / 40⟩ : RegionDiffRow),
          (⟨"coal_ppl", "SSP2", 2025, 1400⟩ : RefRegLearningRow))).fix_cost
          = mulOpt (costRowLearning
              ((⟨"coal_ppl", "R12_AFR", 1500, 6 / 5, 1 / 40⟩ : RegionDiffRow),
                (⟨"coal_ppl", "SSP2", 2025, 1400⟩ : RefRegLearningRow))).inv_cost
            (some m.1.fix_ratio))
    ∧ (∃ m : (RegionDiffRow × RefRegLearningRow) × GdpAdjRow,
      costRowGdp ((⟨"coal_ppl", "R12_AFR", 1500, 6 / 5, 1 / 40⟩,
          ⟨"coal_ppl", "SSP2", 2025, 1400⟩),
          ⟨"Review (2023)", "SSP2", "coal_ppl", "R12_AFR", 2025, 11 / 10⟩)
        = costRowGdp m
      ∧ (costRowGdp ((⟨"coal_ppl", "R12_AFR", 1500, 6 / 5, 1 / 40⟩,
          ⟨"coal_ppl", "SSP2", 2025, 1400⟩),
          ⟨"Review (2023)", "SSP2", "coal_ppl", "R12_AFR", 2025, 11 / 10⟩)).message_technology
          = m.1.1.message_technology
      ∧ (costRowGdp ((⟨"coal_ppl", "R12_AFR", 1500, 6 / 5, 1 / 40⟩,
          ⟨"coal_ppl", "SSP2", 2025, 1400⟩),
          ⟨"Review (2023)", "SSP2", "coal_ppl", "R12_AFR", 2025, 11 / 10⟩)).fix_cost
          = mulOpt (costRowGdp ((⟨"coal_ppl", "R12_AFR", 1500, 6 / 5, 1 / 40⟩,
              ⟨"coal_ppl", "SSP2", 2025, 1400⟩),
              ⟨"Review (2023)", "SSP2", "coal_ppl", "R12_AFR", 2025, 11 / 10⟩)).inv_cost
            (some m.1.1.fix_ratio))
    ∧ (∃ m : Option ((RegionDiffRow × RefRegLearningRow) × Rat) × Option SplineRow,
      costRowConverge (some ((⟨"coal_ppl", "R12_AFR", 1500, 6 / 5, 1 / 40⟩,
          ⟨"coal_ppl", "SSP2", 2025, 1400⟩),
          inv_cost_converge 2050 (⟨"coal_ppl", "R12_AFR", 1500, 6 / 5, 1 / 40⟩,
            ⟨"coal_ppl", "SSP2", 2025, 1400⟩)), none)
        = costRowConverge m
      ∧ (costRowConverge (some ((⟨"coal_ppl", "R12_AFR", 1500, 6 / 5, 1 / 40⟩,
          ⟨"coal_ppl", "SSP2", 2025, 1400⟩),
          inv_cost_converge 2050 (⟨"coal_ppl", "R12_AFR", 1500, 6 / 5, 1 / 40⟩,
            ⟨"coal_ppl", "SSP2", 2025, 1400⟩)), none)).fix_cost
          = mulOpt (costRowConverge (some ((⟨"coal_ppl", "R12_AFR", 1500, 6 / 5, 1 / 40⟩,
              ⟨"coal_ppl", "SSP2", 2025, 1400⟩),
              inv_cost_converge 2050 (⟨"coal_ppl", "R12_AFR", 1500, 6 / 5, 1 / 40⟩,
                ⟨"coal_ppl", "SSP2", 2025, 1400⟩)), none)).inv_cost
            (m.1.map fun a => a.1.1.fix_ratio)) :=
  ⟨c8_fix_cost_is_inv_cost_times_fix_ratio.1 (some "all")
      [⟨"coal_ppl", "R12_AFR", 1500, 6 / 5, 1 / 40⟩]
      [⟨"coal_ppl", "SSP2", 2025, 1400⟩]
      [costRowLearning (⟨"coal_ppl", "R12_AFR", 1500, 6 / 5, 1 / 40⟩,
        ⟨"coal_ppl", "SSP2", 2025, 1400⟩)] rfl
      (costRowLearning (⟨"coal_ppl", "R12_AFR", 1500, 6 / 5, 1 / 40⟩,
        ⟨"coal_ppl", "SSP2", 2025, 1400⟩)) (List.mem_singleton.2 rfl),
    c8_fix_cost_is_inv_cost_times_fix_ratio.2.1 (some "all") (some "updated")
      [⟨"coal_ppl", "R12_AFR", 1500, 6 / 5, 1 / 40⟩]
      [⟨"coal_ppl", "SSP2", 2025, 1400⟩]
      [⟨"Review (2023)", "SSP2", "coal_ppl", "R12_AFR", 2025, 11 / 10⟩]
      [costRowGdp ((⟨"coal_ppl", "R12_AFR", 1500, 6 / 5, 1 / 40⟩,
          ⟨"coal_ppl", "SSP2", 2025, 1400⟩),
          ⟨"Review (2023)", "SSP2", "coal_ppl", "R12_AFR", 2025, 11 / 10⟩)] rfl
      (costRowGdp ((⟨"coal_ppl", "R12_AFR", 1500, 6 / 5, 1 / 40⟩,
          ⟨"coal_ppl", "SSP2", 2025, 1400⟩),
          ⟨"Review (2023)", "SSP2", "coal_ppl", "R12_AFR", 2025, 11 / 10⟩))
      (List.mem_singleton.2 rfl),
    c8_fix_cost_is_inv_cost_times_fix_ratio.2.2 (some "all") 2050
      (fun _ _ => []) [⟨"coal_ppl", "R12_AFR", 1500, 6 / 5, 1 / 40⟩]
      [⟨"coal_ppl", "SSP2", 2025, 1400⟩]
      [costRowConverge (some ((⟨"coal_ppl", "R12_AFR", 1500, 6 / 5, 1 / 40⟩,
          ⟨"coal_ppl", "SSP2", 2025, 1400⟩),
          inv_cost_converge 2050 (⟨"coal_ppl", "R12_AFR", 1500, 6 / 5, 1 / 40⟩,
            ⟨"coal_ppl", "SSP2", 2025, 1400⟩)), none)] rfl
      (costRowConverge (some ((⟨"coal_ppl", "R12_AFR", 1500, 6 / 5, 1 / 40⟩,
          ⟨"coal_ppl", "SSP2", 2025, 1400⟩),
          inv_cost_converge 2050 (⟨"coal_ppl", "R12_AFR", 1500, 6 / 5, 1 / 40⟩,
            ⟨"coal_ppl", "SSP2", 2025, 1400⟩)), none))
      (List.mem_singleton.2 rfl)⟩

theorem pdDiv_isSome (a b : Option Rat) (h : (pdDiv a b).isNone = false) :
    ∃ x y, a = some x ∧ b = some y ∧ y ≠ 0 ∧ pdDiv a b = some (x / y) := by
  rcases a with _ | x
  · simp [pdDiv] at h
  rcases b with _ | y
  · simp [pdDiv] at h
  by_cases hz : y = 0
  · simp [pdDiv, hz] at h
  · exact ⟨x, y, rfl, rfl, hz, by simp [pdDiv, hz]⟩

/-- C7 (confirmed): every row of the intensity table returned by
`read_timeseries_buildings` carries the unit `kg/m2`, has a non-`NaN` value
(the `NaN` rows are dropped by the final filter), and that value is the
pivoted value of some non-floor-space variable divided by the
`Energy Service|Residential|Floor Space` value of the same region and year.
The hypothesis that every floor-space input value is nonzero keeps the
rational model aligned with float division (a zero denominator would give a
non-finite float instead of `NaN`). -/
theorem c7_buildings_intensity (df : List BldRaw)
    (_hfs : ∀ r ∈ df, r.variable_name = floor_space_var → r.value ≠ 0) :
    ∀ out ∈ read_timeseries_buildings_intensity df,
      out.unit = "kg/m2"
      ∧ ∃ v rv fv, v ≠ floor_space_var
          ∧ pivotLookup df out.node out.year v = some rv
          ∧ pivotLookup df out.node out.year floor_space_var = some fv
          ∧ fv ≠ 0
          ∧ out.value = some (rv / fv) := by
  intro out hout
  simp only [read_timeseries_buildings_intensity] at hout
  rcases List.mem_filter.1 hout with ⟨hmem, hval⟩
  rcases List.mem_flatMap.1 hmem with ⟨p, _, hmap⟩
  rcases List.mem_map.1 hmap with ⟨v, hv, rfl⟩
  have hvne : v ≠ floor_space_var := by
    have := (List.mem_filter.1 hv).2
    simpa [bne_iff_ne] using this
  have hval2 : (pdDiv (pivotLookup df p.1 p.2 v)
      (pivotLookup df p.1 p.2 floor_space_var)).isNone = false := by
    simpa using hval
  rcases pdDiv_isSome _ _ hval2 with ⟨x, y, hx, hy, hz, heq⟩
  exact ⟨rfl, v, x, y, hvne, hx, hy, hz, heq⟩

/-- C7 witness: a two-row input (floor space 10, cement 30 in the same region
and year). -/
theorem c7_buildings_intensity_witness :
    ("kg/m2" : String) = "kg/m2"
    ∧ ∃ v rv fv, v ≠ floor_space_var
        ∧ pivotLookup
            [⟨"R11_NAM", "Energy Service|Residential|Floor Space", 2020, 10⟩,
             ⟨"R11_NAM", "Material Demand|Residential|Cement", 2020, 30⟩]
            "R11_NAM" 2020 v = some rv
        ∧ pivotLookup
            [⟨"R11_NAM", "Energy Service|Residential|Floor Space", 2020, 10⟩,
             ⟨"R11_NAM", "Material Demand|Residential|Cement", 2020, 30⟩]
            "R11_NAM" 2020 floor_space_var = some fv
        ∧ fv ≠ 0
        ∧ pdDiv
            (pivotLookup
              [⟨"R11_NAM", "Energy Service|Residential|Floor Space", 2020, 10⟩,
               ⟨"R11_NAM", "Material Demand|Residential|Cement", 2020, 30⟩]
              "R11_NAM" 2020 "Material Demand|Residential|Cement")
            (pivotLookup
              [⟨"R11_NAM", "Energy Service|Residential|Floor Space", 2020, 10⟩,
               ⟨"R11_NAM", "Material Demand|Residential|Cement", 2020, 30⟩]
              "R11_NAM" 2020 floor_space_var)
            = some (rv / fv) :=
  c7_buildings_intensity
    [⟨"R11_NAM", "Energy Service|Residential|Floor Space", 2020, 10⟩,
     ⟨"R11_NAM", "Material Demand|Residential|Cement", 2020, 30⟩]
    (by decide)
    ⟨"R11_NAM", 2020,
      pdDiv
        (pivotLookup
          [⟨"R11_NAM", "Energy Service|Residential|Floor Space", 2020, 10⟩,
           ⟨"R11_NAM", "Material Demand|Residential|Cement", 2020, 30⟩]
          "R11_NAM" 2020 "Material Demand|Residential|Cement")
        (pivotLookup
          [⟨"R11_NAM", "Energy Service|Residential|Floor Space", 2020, 10⟩,
           ⟨"R11_NAM", "Material Demand|Residential|Cement", 2020, 30⟩]
          "R11_NAM" 2020 floor_space_var), "kg/m2"⟩
    (List.mem_singleton.2 rfl)

/-- C5 (confirmed): for every (ssp_scenario, message_technology, r11_region)
combination present in its input, `apply_polynominal_regression_NAM_costs`
returns exactly one row — the row carrying the three coefficients and the
intercept of the degree-3 fit of projected cost on year over that
combination's rows — and a combination with no input rows contributes no
output row. -/
theorem c5_polynomial_regression_per_combination
    (fit : List (Int × Rat) → Rat × Rat × Rat × Rat) (df : List TechCostRow)
    (i j k : String) :
    ((∃ r ∈ df, r.ssp_scenario = i ∧ r.message_technology = j
        ∧ r.r11_region = k) →
      (apply_polynominal_regression_NAM_costs fit df).filter
          (fun r => r.ssp_scenario == i && r.message_technology == j
            && r.r11_region == k)
        = [regRowOf fit df (i, j, k)])
    ∧ ((¬ ∃ r ∈ df, r.ssp_scenario = i ∧ r.message_technology = j
        ∧ r.r11_region = k) →
      (apply_polynominal_regression_NAM_costs fit df).filter
          (fun r => r.ssp_scenario == i && r.message_technology == j
            && r.r11_region == k)
        = []) := by
  constructor
  · rintro ⟨r0, hr0, hk1, hk2, hk3⟩
    have hr0sub : r0 ∈ techSubset df (i, j, k) := by
      refine List.mem_filter.2 ⟨hr0, ?_⟩
      simp [hk1, hk2, hk3]
    have hmemtriple : (i, j, k) ∈
        tripleProduct (uniqueFirst (df.map fun r => r.ssp_scenario))
          (uniqueFirst (df.map fun r => r.message_technology))
          (uniqueFirst (df.map fun r => r.r11_region)) := by
      refine (mem_tripleProduct _ _ _ _).2 ⟨?_, ?_, ?_⟩
      · exact (mem_uniqueFirst _ _).2 (List.mem_map.2 ⟨r0, hr0, hk1⟩)
      · exact (mem_uniqueFirst _ _).2 (List.mem_map.2 ⟨r0, hr0, hk2⟩)
      · exact (mem_uniqueFirst _ _).2 (List.mem_map.2 ⟨r0, hr0, hk3⟩)
    have hnd := nodup_tripleProduct
      (uniqueFirst (df.map fun r => r.ssp_scenario))
      (uniqueFirst (df.map fun r => r.message_technology))
      (uniqueFirst (df.map fun r => r.r11_region))
      (nodup_uniqueFirst _) (nodup_uniqueFirst _) (nodup_uniqueFirst _)
    rw [apply_polynominal_regression_NAM_costs, filter_flatMap_comm]
    rw [flatMap_eq_single_of_nodup _ _ (i, j, k) hmemtriple hnd ?hother]
    case hother =>
      intro t htmem htne
      by_cases he : (techSubset df t).isEmpty
      · rw [if_pos he]; rfl
      · rw [if_neg he]
        have hP : ((regRowOf fit df t).ssp_scenario == i
            && (regRowOf fit df t).message_technology == j
            && (regRowOf fit df t).r11_region == k) = false := by
          rcases t with ⟨t1, t2, t3⟩
          by_contra hcon
          rw [Bool.not_eq_false] at hcon
          simp only [regRowOf, Bool.and_eq_true, beq_iff_eq] at hcon
          exact htne (by
            obtain ⟨⟨e1, e2⟩, e3⟩ := hcon
            exact Prod.ext e1 (Prod.ext e2 e3))
        simp [List.filter_cons, hP]
    have hne : ¬(techSubset df (i, j, k)).isEmpty := by
      intro habs
      rw [List.isEmpty_iff] at habs
      rw [habs] at hr0sub
      cases hr0sub
    rw [if_neg hne]
    have hP : ((regRowOf fit df (i, j, k)).ssp_scenario == i
        && (regRowOf fit df (i, j, k)).message_technology == j
        && (regRowOf fit df (i, j, k)).r11_region == k) = true := by
      simp [regRowOf]
    simp [List.filter_cons, hP]
  · intro hno
    refine List.eq_nil_iff_forall_not_mem.2 fun r hr => ?_
    rcases List.mem_filter.1 hr with ⟨hrapp, hrP⟩
    rw [apply_polynominal_regression_NAM_costs] at hrapp
    rcases List.mem_flatMap.1 hrapp with ⟨t, _, hrt⟩
    by_cases he : (techSubset df t).isEmpty
    · rw [if_pos he] at hrt
      cases hrt
    · rw [if_neg he] at hrt
      rcases List.mem_singleton.1 hrt with rfl
      rcases t with ⟨t1, t2, t3⟩
      simp only [regRowOf, Bool.and_eq_true, beq_iff_eq] at hrP
      obtain ⟨⟨e1, e2⟩, e3⟩ := hrP
      subst e1; subst e2; subst e3
      rcases List.exists_mem_of_ne_nil (techSubset df (t1, t2, t3))
          (fun hnil => he (by rw [hnil]; rfl)) with ⟨x, hx⟩
      rcases List.mem_filter.1 hx with ⟨hxdf, hxpred⟩
      simp only [Bool.and_eq_true, beq_iff_eq] at hxpred
      obtain ⟨⟨f1, f2⟩, f3⟩ := hxpred
      exact hno ⟨x, hxdf, f1, f2, f3⟩

/-- C5 witness: a one-row input, its own combination (present) and a
different region (absent). -/
theorem c5_polynomial_regression_witness :
    (apply_polynominal_regression_NAM_costs (fun _ => (1, 2, 3, 4))
        [⟨"SSP1", "coal_ppl", "NAM", 2020, 100⟩]).filter
        (fun r => r.ssp_scenario == "SSP1" && r.message_technology == "coal_ppl"
          && r.r11_region == "NAM")
      = [regRowOf (fun _ => (1, 2, 3, 4))
          [⟨"SSP1", "coal_ppl", "NAM", 2020, 100⟩] ("SSP1", "coal_ppl", "NAM")]
    ∧ (apply_polynominal_regression_NAM_costs (fun _ => (1, 2, 3, 4))
        [⟨"SSP1", "coal_ppl", "NAM", 2020, 100⟩]).filter
        (fun r => r.ssp_scenario == "SSP1" && r.message_technology == "coal_ppl"
          && r.r11_region == "LAM")
      = [] :=
  ⟨(c5_polynomial_regression_per_combination (fun _ => (1, 2, 3, 4))
      [⟨"SSP1", "coal_ppl", "NAM", 2020, 100⟩] "SSP1" "coal_ppl" "NAM").1
      ⟨⟨"SSP1", "coal_ppl", "NAM", 2020, 100⟩, List.mem_singleton.2 rfl,
        rfl, rfl, rfl⟩,
   (c5_polynomial_regression_per_combination (fun _ => (1, 2, 3, 4))
      [⟨"SSP1", "coal_ppl", "NAM", 2020, 100⟩] "SSP1" "coal_ppl" "LAM").2
      (by decide)⟩

end MsgIx
